import Mathlib

/-!
# Session Tracker — verification of the persistence/sync contract

Shallow embedding of the session-tracker repository:

* `src/src/supabase.ts` — the remote store (`fetchSessionsWithTasks`,
  `createSessionWithTasks`, `updateTaskCompleted`) and its row types;
* the remote App variant — `loadSessions` / `saveSessions` / `handleSave` /
  `handleDelete` gated on a Supabase auth session;
* the local App variant — `loadSessions` / `saveSessions` over a single
  localStorage key, plus the shared form-validation logic in `handleSave`.

Modelling conventions:

* JavaScript numbers that the app actually produces are integers or `NaN`
  (the only non-integer source is `Number('')`/`Number(garbage)`, modelled
  by `JsNum.nan`); fractional values never arise in the claims.
* The Supabase backend is modelled as an explicit database value (`DB`), and
  the query builder's `.order(...)` calls as multi-key sorts over it
  (PostgREST semantics: successive `.order` keys, `NULLS LAST` for
  ascending order over a nullable column).  Error outcomes of each remote
  call are injected as oracle parameters, since the network can fail
  independently of the data.
* An async TypeScript function is modelled as a function into
  `Except String α`: `.error m` is a rejected promise carrying message `m`,
  `.ok` a resolved one.
-/

/-- `SessionType = 'Green' | 'Yellow' | 'Red'`. -/
inductive SessionType
  | Green
  | Yellow
  | Red
deriving DecidableEq, Repr

/-- `EnergyAfter = 'Better' | 'Same' | 'Worse'`. -/
inductive EnergyAfter
  | Better
  | Same
  | Worse
deriving DecidableEq, Repr

/-- A JavaScript number as the app produces it: an integer or `NaN`
(`Number('')` on an empty numeric input yields `NaN`). -/
inductive JsNum
  | nan
  | int (n : Int)
deriving DecidableEq, Repr

/-- `isNaN(x)` on a modelled JS number. -/
def JsNum.isNaN : JsNum → Bool
  | .nan => true
  | .int _ => false

/-- The string value the `sessionType` radio inputs carry (used for the JS
truthiness check `!form.sessionType`). -/
def SessionType.toStr : SessionType → String
  | .Green => "Green"
  | .Yellow => "Yellow"
  | .Red => "Red"

/-- The string value the `energyAfter` radio inputs carry. -/
def EnergyAfter.toStr : EnergyAfter → String
  | .Better => "Better"
  | .Same => "Same"
  | .Worse => "Worse"

/-- JS truthiness of a string: only `''` is falsy. -/
def jsFalsy (s : String) : Bool := s = ""

/-- `SessionEntry` — the UI-facing flat entry shape (identical in both App
variants). -/
structure SessionEntry where
  id : String
  date : String
  sessionType : SessionType
  plannedMinutes : JsNum
  actualMinutes : JsNum
  tasksCompleted : Option JsNum
  energyAfter : EnergyAfter
  notes : String
deriving DecidableEq, Repr

/-- `SessionRow` from `src/types` — a persisted `sessions` table row.
`notes` is `string | null`; `id` and `created_at` are server-assigned. -/
structure SessionRow where
  id : String
  session_date : String
  session_type : SessionType
  planned_minutes : JsNum
  actual_minutes : JsNum
  energy_after : EnergyAfter
  notes : Option String
  created_at : String
  user_id : String
deriving DecidableEq, Repr

/-- `TaskRow` from `src/types` — a persisted `session_tasks` table row. -/
structure TaskRow where
  id : String
  session_id : String
  task_name : String
  sort_order : Option Int
  planned_minutes : Option JsNum
  completed : Bool
  created_at : String
  user_id : String
deriving DecidableEq, Repr

/-- `SessionWithTasks extends SessionRow` with a `tasks` array. -/
structure SessionWithTasks extends SessionRow where
  tasks : List TaskRow
deriving DecidableEq, Repr

/-- `Omit<SessionRow, 'id' | 'created_at'>` — the payload handed to the
session insert. -/
structure SessionInsert where
  session_date : String
  session_type : SessionType
  planned_minutes : JsNum
  actual_minutes : JsNum
  energy_after : EnergyAfter
  notes : Option String
  user_id : String
deriving DecidableEq, Repr

/-- `Omit<TaskRow, 'id' | 'session_id' | 'created_at'>` — one element of the
`tasks` argument of `createSessionWithTasks`. -/
structure TaskInsert where
  task_name : String
  sort_order : Option Int
  planned_minutes : Option JsNum
  completed : Bool
  user_id : String
deriving DecidableEq, Repr

/-- A task payload after the spread `{ ...task, session_id: session.id }`. -/
structure TaskInsertStamped extends TaskInsert where
  session_id : String
deriving DecidableEq, Repr

/-- `{ ...task, session_id: sid }`. -/
def stampTask (sid : String) (t : TaskInsert) : TaskInsertStamped :=
  { toTaskInsert := t, session_id := sid }

/-- The remote store's visible state: the rows of the `sessions` and
`session_tasks` tables (already scoped to the current user by row-level
security, which is the store's responsibility). -/
structure DB where
  sessions : List SessionRow
  tasks : List TaskRow
deriving DecidableEq, Repr

/-- Outcome of one Supabase insert call: `{ data, error }` where the code
distinguishes a reported error, a null `data`, and returned row(s). -/
inductive InsertResult (α : Type)
  | ok (data : α)
  | noData
  | err (m : String)
deriving DecidableEq, Repr

/-! ## Query ordering semantics

`fetchSessionsWithTasks` asks the store for
`.order('session_date', { ascending: false }).order('created_at',
{ ascending: false })` on sessions and `.order('sort_order',
{ ascending: true })` on tasks.  We model the store's answer as an
insertion sort of the table under the corresponding total preorder. -/

/-- Session ordering requested from the store: `session_date` descending,
then `created_at` descending.  `sessLE a b` holds when `a` may precede
`b`. -/
def sessLE (a b : SessionRow) : Prop :=
  b.session_date < a.session_date ∨
    (a.session_date = b.session_date ∧ b.created_at ≤ a.created_at)

instance : DecidableRel sessLE := fun a b => by
  unfold sessLE; infer_instance

instance : IsTotal SessionRow sessLE where
  total a b := by
    rcases lt_trichotomy a.session_date b.session_date with h | h | h
    · exact Or.inr (Or.inl h)
    · rcases le_total b.created_at a.created_at with h' | h'
      · exact Or.inl (Or.inr ⟨h, h'⟩)
      · exact Or.inr (Or.inr ⟨h.symm, h'⟩)
    · exact Or.inl (Or.inl h)

instance : IsTrans SessionRow sessLE where
  trans a b c hab hbc := by
    rcases hab with h1 | ⟨e1, l1⟩
    · rcases hbc with h2 | ⟨e2, l2⟩
      · exact Or.inl (h2.trans h1)
      · exact Or.inl (e2 ▸ h1)
    · rcases hbc with h2 | ⟨e2, l2⟩
      · exact Or.inl (e1 ▸ h2)
      · exact Or.inr ⟨e1.trans e2, l2.trans l1⟩

/-- Ascending order over a nullable integer column with `NULLS LAST`
(the PostgreSQL default for ascending order). -/
def optIntLE : Option Int → Option Int → Prop
  | some x, some y => x ≤ y
  | some _, none => True
  | none, some _ => False
  | none, none => True

instance : DecidableRel optIntLE := fun x y => by
  rcases x with _ | x <;> rcases y with _ | y <;>
    simp only [optIntLE] <;> infer_instance

/-- Task ordering requested from the store: `sort_order` ascending, with
`NULLS LAST`. -/
def taskLE (a b : TaskRow) : Prop := optIntLE a.sort_order b.sort_order

instance : DecidableRel taskLE := fun a b => by
  unfold taskLE; infer_instance

instance : IsTotal TaskRow taskLE where
  total a b := by
    unfold taskLE
    generalize a.sort_order = x
    generalize b.sort_order = y
    rcases x with _ | x <;> rcases y with _ | y <;> simp only [optIntLE] <;>
      first
      | exact Or.inl trivial
      | exact Or.inr trivial
      | exact le_total x y

instance : IsTrans TaskRow taskLE where
  trans a b c hab hbc := by
    unfold taskLE at *
    revert hab hbc
    generalize a.sort_order = x
    generalize b.sort_order = y
    generalize c.sort_order = z
    rcases x with _ | x <;> rcases y with _ | y <;> rcases z with _ | z <;>
      simp only [optIntLE] <;> intro hxy hyz <;> first
      | trivial
      | exact hxy.trans hyz
      | exact hxy.elim
      | exact hyz.elim

/-- The store's answer to the sessions query of `fetchSessionsWithTasks`. -/
def sessionsOrdered (db : DB) : List SessionRow :=
  List.insertionSort sessLE db.sessions

/-- The store's answer to the per-session tasks query:
`.eq('session_id', sid).order('sort_order', { ascending: true })`. -/
def tasksForSession (db : DB) (sid : String) : List TaskRow :=
  List.insertionSort taskLE (db.tasks.filter (fun t => t.session_id = sid))

/-! ## `fetchSessionsWithTasks` (src/src/supabase.ts, lines 21–65) -/

/-- The `for (const session of sessions)` loop body: fetch each session's
tasks, throwing on the first per-session task-query error.  `tasksError`
is the oracle giving the task query's error outcome per session id. -/
def fetchLoop (db : DB) (tasksError : String → Option String) :
    List SessionRow → Except String (List SessionWithTasks)
  | [] => .ok []
  | s :: rest =>
    match tasksError s.id with
    | some m =>
        .error ("Failed to fetch tasks for session " ++ s.id ++ ": " ++ m)
    | none =>
        match fetchLoop db tasksError rest with
        | .error e => .error e
        | .ok xs =>
            .ok ({ toSessionRow := s, tasks := tasksForSession db s.id } :: xs)

/-- `fetchSessionsWithTasks()`: query the sessions (ordered date desc,
created_at desc), then each session's tasks (sort_order asc); any thrown
error is re-wrapped as `fetchSessionsWithTasks failed: ...`. -/
def fetchSessionsWithTasks (db : DB) (sessionsError : Option String)
    (tasksError : String → Option String) :
    Except String (List SessionWithTasks) :=
  match sessionsError with
  | some m =>
      .error ("fetchSessionsWithTasks failed: " ++
        ("Failed to fetch sessions: " ++ m))
  | none =>
      let sessions := sessionsOrdered db
      if sessions.isEmpty then .ok []
      else
        match fetchLoop db tasksError sessions with
        | .error m => .error ("fetchSessionsWithTasks failed: " ++ m)
        | .ok xs => .ok xs

/-! ## `createSessionWithTasks` (src/src/supabase.ts, lines 67–116) -/

/-- `createSessionWithTasks(sessionData, tasks)`.  `sessionRes` is the
outcome of the session-row insert (on success the server-echoed row, with
its assigned `id` and `created_at`); `tasksRes` gives the outcome of the
task batch insert as a function of the stamped payload actually sent.
Returns the store state after the call together with the settled promise. -/
def createSessionWithTasks (db : DB) (sessionData : SessionInsert)
    (tasks : List TaskInsert) (sessionRes : InsertResult SessionRow)
    (tasksRes : List TaskInsertStamped → InsertResult (List TaskRow)) :
    DB × Except String SessionWithTasks :=
  match sessionRes with
  | .err m =>
      (db, .error ("createSessionWithTasks failed: " ++
        ("Failed to create session: " ++ m)))
  | .noData =>
      (db, .error ("createSessionWithTasks failed: " ++
        "Session creation returned no data"))
  | .ok session =>
      let db1 : DB := { db with sessions := db.sessions ++ [session] }
      let tasksToInsert := tasks.map (stampTask session.id)
      if tasksToInsert.length > 0 then
        match tasksRes tasksToInsert with
        | .err m =>
            (db1, .error ("createSessionWithTasks failed: " ++
              ("Failed to create tasks: " ++ m)))
        | .noData =>
            (db1, .ok { toSessionRow := session, tasks := [] })
        | .ok rows =>
            ({ db1 with tasks := db1.tasks ++ rows },
              .ok { toSessionRow := session, tasks := rows })
      else
        (db1, .ok { toSessionRow := session, tasks := [] })

/-! ## Shared form logic (both App variants) -/

/-- `defaultPlannedFor(t)`: the fixed lookup `Green→90, Yellow→45, Red→15`. -/
def defaultPlannedFor : SessionType → JsNum
  | .Green => .int 90
  | .Yellow => .int 45
  | .Red => .int 15

/-- `{ ...initialForm, date: today() }` — the fresh draft after a save. -/
def initialFormWithDate (todayStr : String) : SessionEntry :=
  { id := ""
    date := todayStr
    sessionType := .Green
    plannedMinutes := defaultPlannedFor .Green
    actualMinutes := .int 0
    tasksCompleted := none
    energyAfter := .Same
    notes := "" }

/-- The numeric-input parse in `handleInputChange`:
`value === '' ? NaN : Number(value)`.  `numberOf` stands for JavaScript's
`Number(...)` on nonempty strings. -/
def parseNumberInput (value : String) (numberOf : String → JsNum) : JsNum :=
  if value = "" then .nan else numberOf value

/-- The inline validation sequence of `handleSave` (identical in both
variants), short-circuiting at the first failing rule:
`!form.sessionType`, then `!form.energyAfter`, then
`form.actualMinutes === null || form.actualMinutes === undefined ||
isNaN(form.actualMinutes)`.  In the typed model `sessionType` and
`energyAfter` always hold a tag (whose string value is nonempty, hence
truthy) and `actualMinutes` always holds a number, so of the third rule's
three disjuncts only the `isNaN` one can fire. -/
def validateForm (form : SessionEntry) : Option String :=
  if jsFalsy form.sessionType.toStr then some "Session type is required"
  else if jsFalsy form.energyAfter.toStr then some "Energy after is required"
  else if form.actualMinutes.isNaN then some "Actual minutes is required"
  else none

/-- JavaScript `x || d` for a nullable string `x` and default `d`. -/
def jsOrString (x : Option String) (d : String) : String :=
  match x with
  | none => d
  | some s => if s = "" then d else s

/-! ## Remote App variant (`loadSessions`/`saveSessions` over Supabase) -/

namespace Remote

/-- The per-row mapping inside `loadSessions`: flatten a fetched
`SessionWithTasks` into a `SessionEntry`.  `tasksCompleted` is set to
`null` unconditionally (never derived from `s.tasks`); `notes` is
`s.notes || ''`. -/
def rowToEntry (s : SessionWithTasks) : SessionEntry :=
  { id := s.id
    date := s.session_date
    sessionType := s.session_type
    plannedMinutes := s.planned_minutes
    actualMinutes := s.actual_minutes
    tasksCompleted := none
    energyAfter := s.energy_after
    notes := jsOrString s.notes "" }

/-- Remote `loadSessions()`: if no auth session, resolve with `[]`; fetch
the rows and map them; any error thrown by the fetch is caught, logged and
turned into a resolved `[]`.  Every path resolves — the promise never
rejects (the `Except.error` case of the result type is unused). -/
def loadSessions (auth : Option String) (db : DB) (sessionsError : Option String)
    (tasksError : String → Option String) : Except String (List SessionEntry) :=
  match auth with
  | none => .ok []
  | some _ =>
      match fetchSessionsWithTasks db sessionsError tasksError with
      | .error _ => .ok []
      | .ok rows => .ok (rows.map rowToEntry)

/-- The list a caller of `loadSessions` observes (it always resolves). -/
def loadSessionsList (auth : Option String) (db : DB)
    (sessionsError : Option String) (tasksError : String → Option String) :
    List SessionEntry :=
  match loadSessions auth db sessionsError tasksError with
  | .ok l => l
  | .error _ => []

/-- The session payload built inline in `saveSessions`: field renames, with
`notes: entry.notes || null` and `tasksCompleted` not represented at all. -/
def entryToInsert (entry : SessionEntry) (uid : String) : SessionInsert :=
  { session_date := entry.date
    session_type := entry.sessionType
    planned_minutes := entry.plannedMinutes
    actual_minutes := entry.actualMinutes
    energy_after := entry.energyAfter
    notes := if entry.notes = "" then none else some entry.notes
    user_id := uid }

/-- Remote `saveSessions(entry)`: throw `'Not authenticated'` if no auth
session (before any store call), else `createSessionWithTasks` with an
empty task list; the catch block logs and rethrows the same error. -/
def saveSessions (auth : Option String) (entry : SessionEntry) (db : DB)
    (sessionRes : InsertResult SessionRow)
    (tasksRes : List TaskInsertStamped → InsertResult (List TaskRow)) :
    DB × Except String Unit :=
  match auth with
  | none => (db, .error "Not authenticated")
  | some uid =>
      match createSessionWithTasks db (entryToInsert entry uid) [] sessionRes
          tasksRes with
      | (db', .error m) => (db', .error m)
      | (db', .ok _) => (db', .ok ())

/-- Observable outcome of a remote `handleSave`/`handleDelete`: the store
state afterwards, the error message surfaced via `setError` (if any), the
list passed to `setSessions` (if it was called), and the resulting draft. -/
structure SaveResult where
  db : DB
  errorMsg : Option String
  sessionsSet : Option (List SessionEntry)
  form : SessionEntry
deriving DecidableEq, Repr

/-- Remote `handleSave()`: validate synchronously; on a validation failure
set the error and stop (no store interaction); otherwise save, reload the
list and reset the draft; a save failure surfaces
`e.message || 'Failed to save session'` and leaves the draft untouched. -/
def handleSave (auth : Option String) (db : DB) (form : SessionEntry)
    (sessionRes : InsertResult SessionRow)
    (tasksRes : List TaskInsertStamped → InsertResult (List TaskRow))
    (sessionsError : Option String) (tasksError : String → Option String)
    (todayStr : String) : SaveResult :=
  match validateForm form with
  | some msg => { db := db, errorMsg := some msg, sessionsSet := none, form := form }
  | none =>
      match saveSessions auth form db sessionRes tasksRes with
      | (db', .error m) =>
          { db := db'
            errorMsg := some (if m = "" then "Failed to save session" else m)
            sessionsSet := none
            form := form }
      | (db', .ok _) =>
          match loadSessions auth db' sessionsError tasksError with
          | .error m =>
              { db := db'
                errorMsg := some (if m = "" then "Failed to save session" else m)
                sessionsSet := none
                form := form }
          | .ok loaded =>
              { db := db'
                errorMsg := none
                sessionsSet := some loaded
                form := initialFormWithDate todayStr }

/-- How the awaited `supabase.from('sessions').delete().eq('id', id)` call
settles: resolved with no error, resolved with an error *value* in its
result object, or rejected (thrown). -/
inductive DeleteResult
  | ok
  | errValue (m : String)
  | thrown (m : String)
deriving DecidableEq, Repr

/-- Observable outcome of remote `handleDelete`. -/
structure DeleteOutcome where
  db : DB
  sessionsSet : Option (List SessionEntry)
  errorMsg : Option String
deriving DecidableEq, Repr

/-- Remote `handleDelete(id)`: await the delete call — its `{ error }`
result is never inspected — then reload and `setSessions` regardless; a
thrown exception is caught and only logged (`console.error`); `setError`
is never called on any path. -/
def handleDelete (auth : Option String) (db : DB) (id : String)
    (dres : DeleteResult) (sessionsError : Option String)
    (tasksError : String → Option String) : DeleteOutcome :=
  match dres with
  | .thrown _ => { db := db, sessionsSet := none, errorMsg := none }
  | .errValue _ =>
      match loadSessions auth db sessionsError tasksError with
      | .error _ => { db := db, sessionsSet := none, errorMsg := none }
      | .ok loaded => { db := db, sessionsSet := some loaded, errorMsg := none }
  | .ok =>
      let db' : DB := { db with sessions := db.sessions.filter (fun s => s.id != id) }
      match loadSessions auth db' sessionsError tasksError with
      | .error _ => { db := db', sessionsSet := none, errorMsg := none }
      | .ok loaded => { db := db', sessionsSet := some loaded, errorMsg := none }

end Remote

/-! ## Local App variant (`loadSessions`/`saveSessions` over localStorage)

The raw string under the storage key is classified by exactly the
distinctions the code draws: `!raw` (absent or `''`), `JSON.parse` throws,
parsed non-array, parsed array.  The code returns a parsed array with an
unchecked `as SessionEntry[]` cast, so the array case carries its elements
at entry granularity; `JSON.stringify` of an entries array (entries whose
numeric fields are not `NaN`, see `jsonSafeEntry`) always produces a
payload that parses back to that same array. -/

namespace LocalStore

/-- A successfully parsed payload: a JSON array (of serialized entries) or
any non-array JSON value. -/
inductive ParsedJson
  | array (elems : List SessionEntry)
  | nonArray
deriving DecidableEq, Repr

/-- The raw payload under `localStorage.getItem('sessionTrackerEntries')`. -/
inductive RawPayload
  | absent
  | empty
  | unparseable
  | parsed (j : ParsedJson)
deriving DecidableEq, Repr

/-- Local `loadSessions()`: `[]` when the payload is absent or `''`
(`!raw`), when `JSON.parse` throws (caught), or when the parsed value is
not an array; otherwise the parsed array cast to `SessionEntry[]`.  Total:
every branch returns, nothing escapes the `try`. -/
def loadSessions : RawPayload → List SessionEntry
  | .absent => []
  | .empty => []
  | .unparseable => []
  | .parsed .nonArray => []
  | .parsed (.array es) => es

/-- Local `saveSessions(entries)`: overwrite the key with
`JSON.stringify(entries)`; a write failure (`writeFails`) is caught and
logged, leaving the prior content in place. -/
def saveSessions (entries : List SessionEntry) (storage : RawPayload)
    (writeFails : Bool) : RawPayload :=
  if writeFails then storage else .parsed (.array entries)

/-- Observable outcome of the local `handleSave`. -/
structure LocalSaveResult where
  errorMsg : Option String
  sessions : List SessionEntry
  storage : RawPayload
  form : SessionEntry
deriving DecidableEq, Repr

/-- Local `handleSave()`: same validation sequence; on success generate an
id, prepend the entry, persist the new list and reset the draft. -/
def handleSave (genId todayStr : String) (form : SessionEntry)
    (sessions : List SessionEntry) (storage : RawPayload)
    (writeFails : Bool) : LocalSaveResult :=
  match validateForm form with
  | some msg =>
      { errorMsg := some msg, sessions := sessions, storage := storage, form := form }
  | none =>
      let entry : SessionEntry := { form with id := genId }
      let next := entry :: sessions
      { errorMsg := none
        sessions := next
        storage := saveSessions next storage writeFails
        form := initialFormWithDate todayStr }

end LocalStore

/-- An entry all of whose numeric fields are actual numbers (not `NaN`),
so that `JSON.stringify`/`JSON.parse` round-trips it unchanged
(`JSON.stringify` turns `NaN` into `null`). -/
def jsonSafeEntry (e : SessionEntry) : Prop :=
  e.plannedMinutes ≠ .nan ∧ e.actualMinutes ≠ .nan ∧ e.tasksCompleted ≠ some .nan

instance (e : SessionEntry) : Decidable (jsonSafeEntry e) := by
  unfold jsonSafeEntry; infer_instance

/-! ## Concrete sample data (used by the closed witness theorems) -/

/-- A sample insert payload. -/
def sdW : SessionInsert :=
  { session_date := "2024-01-02"
    session_type := .Green
    planned_minutes := .int 90
    actual_minutes := .int 60
    energy_after := .Better
    notes := some "ok"
    user_id := "u1" }

/-- A sample persisted session row (earlier date, later created_at). -/
def rowA : SessionRow :=
  { id := "sA"
    session_date := "2024-01-02"
    session_type := .Green
    planned_minutes := .int 90
    actual_minutes := .int 60
    energy_after := .Better
    notes := some "ok"
    created_at := "2024-01-02T10"
    user_id := "u1" }

/-- A second sample session row with a later `session_date`. -/
def rowB : SessionRow :=
  { id := "sB"
    session_date := "2024-01-03"
    session_type := .Red
    planned_minutes := .int 15
    actual_minutes := .int 20
    energy_after := .Worse
    notes := none
    created_at := "2024-01-03T08"
    user_id := "u1" }

/-- A sample task of session `sA` with `sort_order` 2. -/
def taskA : TaskRow :=
  { id := "tA"
    session_id := "sA"
    task_name := "read"
    sort_order := some 2
    planned_minutes := none
    completed := false
    created_at := "2024-01-02T11"
    user_id := "u1" }

/-- A sample task of session `sA` with `sort_order` 1. -/
def taskB : TaskRow :=
  { id := "tB"
    session_id := "sA"
    task_name := "write"
    sort_order := some 1
    planned_minutes := some (.int 10)
    completed := true
    created_at := "2024-01-02T12"
    user_id := "u1" }

/-- A sample store state with two sessions and two tasks. -/
def dbW : DB := { sessions := [rowA, rowB], tasks := [taskA, taskB] }

/-- A sample store state with a single session owning two tasks. -/
def dbF : DB := { sessions := [rowA], tasks := [taskA, taskB] }

/-- The list `fetchSessionsWithTasks` returns on `dbF` with no errors: the
one session, its tasks reordered by `sort_order` ascending. -/
def lF : List SessionWithTasks :=
  [ { toSessionRow := rowA, tasks := [taskB, taskA] } ]

/-- A sample task insert payload. -/
def tiW : TaskInsert :=
  { task_name := "read"
    sort_order := some 1
    planned_minutes := none
    completed := false
    user_id := "u1" }

/-- A sample draft whose `actualMinutes` is `NaN` (empty numeric input). -/
def formNanW : SessionEntry :=
  { initialFormWithDate "2024-02-01" with actualMinutes := .nan }

/-- A sample valid draft/entry. -/
def entryW : SessionEntry :=
  { id := "e1"
    date := "2024-01-02"
    sessionType := .Yellow
    plannedMinutes := .int 45
    actualMinutes := .int 50
    tasksCompleted := some (.int 2)
    energyAfter := .Same
    notes := "" }

/-! ## Helper lemmas about the fetch path -/

/-- With a clean per-session task oracle the fetch loop succeeds and pairs
every session with its ordered tasks. -/
theorem fetchLoop_clean (db : DB) (l : List SessionRow) :
    fetchLoop db (fun _ => none) l =
      .ok (l.map (fun s =>
        { toSessionRow := s, tasks := tasksForSession db s.id })) := by
  induction l with
  | nil => rfl
  | cons s rest ih => simp [fetchLoop, ih]

/-- With no errors, `fetchSessionsWithTasks` returns exactly the ordered
sessions, each with its ordered tasks. -/
theorem fetchSessionsWithTasks_clean (db : DB) :
    fetchSessionsWithTasks db none (fun _ => none) =
      .ok ((sessionsOrdered db).map (fun s =>
        { toSessionRow := s, tasks := tasksForSession db s.id })) := by
  unfold fetchSessionsWithTasks
  rcases h : sessionsOrdered db with _ | ⟨s, rest⟩
  · simp [h]
  · simp [h, fetchLoop_clean]

/-- The remote `loadSessions` always resolves, with `loadSessionsList`. -/
theorem Remote.loadSessions_eq (auth : Option String) (db : DB)
    (sessionsError : Option String) (tasksError : String → Option String) :
    Remote.loadSessions auth db sessionsError tasksError =
      .ok (Remote.loadSessionsList auth db sessionsError tasksError) := by
  unfold Remote.loadSessionsList
  rcases auth with _ | u
  · rfl
  · unfold Remote.loadSessions
    rcases fetchSessionsWithTasks db sessionsError tasksError with m | rows <;> rfl

/-! ## Claims about `createSessionWithTasks` -/

/-- Claim C1: `createSessionWithTasks` inserts the session row first; if
that insert fails (error or no returned row) the call fails and the store
is untouched, and the task insert is never attempted (the outcome does not
depend on the task-insert oracle).  On session-insert success each task is
stamped with the new `session_id`, and if the stamped batch insert then
fails, the call fails with the wrapped create error while the session row
remains persisted — no rollback. -/
theorem c1_create_session_first_no_rollback (db : DB)
    (sessionData : SessionInsert) (tasks : List TaskInsert)
    (session : SessionRow) (m : String)
    (tasksRes tasksRes' : List TaskInsertStamped → InsertResult (List TaskRow)) :
    (createSessionWithTasks db sessionData tasks (.err m) tasksRes =
        (db, .error ("createSessionWithTasks failed: " ++
          ("Failed to create session: " ++ m))) ∧
      createSessionWithTasks db sessionData tasks (.err m) tasksRes =
        createSessionWithTasks db sessionData tasks (.err m) tasksRes' ∧
      createSessionWithTasks db sessionData tasks .noData tasksRes =
        (db, .error ("createSessionWithTasks failed: " ++
          "Session creation returned no data")) ∧
      createSessionWithTasks db sessionData tasks .noData tasksRes =
        createSessionWithTasks db sessionData tasks .noData tasksRes') ∧
    (tasks ≠ [] →
      tasksRes (tasks.map (stampTask session.id)) = .err m →
      createSessionWithTasks db sessionData tasks (.ok session) tasksRes =
        ({ db with sessions := db.sessions ++ [session] },
          .error ("createSessionWithTasks failed: " ++
            ("Failed to create tasks: " ++ m)))) := by
  constructor
  · exact ⟨rfl, rfl, rfl, rfl⟩
  · intro hne hres
    have hlen : 0 < (tasks.map (stampTask session.id)).length := by
      simpa [List.length_map] using List.length_pos.mpr hne
    simp [createSessionWithTasks, hlen, hres, hne]

/-- Claim C1 witness: a concrete run in which the session insert succeeds,
the task batch insert fails, and the already-inserted session row stays in
the store. -/
theorem c1_witness :
    createSessionWithTasks dbW sdW [tiW] (.ok rowA) (fun _ => .err "boom") =
      ({ dbW with sessions := dbW.sessions ++ [rowA] },
        .error ("createSessionWithTasks failed: " ++
          ("Failed to create tasks: " ++ "boom"))) :=
  (c1_create_session_first_no_rollback dbW sdW [tiW] rowA "boom"
      (fun _ => .err "boom") (fun _ => .err "boom")).2
    (by decide) rfl

/-- Claim C2: `createSessionWithTasks(sessionData, [])` with a successful
session insert succeeds: the composed result has an empty task collection
and carries the server-assigned `id` and `created_at` of the inserted
session row (the task-insert call is skipped entirely, so the outcome does
not depend on its oracle). -/
theorem c2_create_empty_tasks_succeeds (db : DB)
    (sessionData : SessionInsert) (session : SessionRow)
    (tasksRes tasksRes' : List TaskInsertStamped → InsertResult (List TaskRow)) :
    createSessionWithTasks db sessionData [] (.ok session) tasksRes =
        ({ db with sessions := db.sessions ++ [session] },
          .ok { toSessionRow := session, tasks := [] }) ∧
      createSessionWithTasks db sessionData [] (.ok session) tasksRes =
        createSessionWithTasks db sessionData [] (.ok session) tasksRes' ∧
      ∃ res, (createSessionWithTasks db sessionData [] (.ok session)
          tasksRes).2 = .ok res ∧
        res.tasks = [] ∧ res.id = session.id ∧
        res.created_at = session.created_at := by
  refine ⟨rfl, rfl, { toSessionRow := session, tasks := [] }, rfl, rfl, rfl, rfl⟩

/-! ## Claims about `fetchSessionsWithTasks` -/

/-- Claim C3: a successful `fetchAll` returns sessions ordered by
`session_date` descending with ties broken by `created_at` descending —
for any entry `a` appearing (anywhere) before `b`, either `a`'s date is
greater, or the dates are equal and `a.created_at ≥ b.created_at` — and
within each returned session the tasks are ordered by `sort_order`
ascending (over the present, non-null sort orders). -/
theorem c3_fetchAll_ordering (db : DB) (l : List SessionWithTasks)
    (h : fetchSessionsWithTasks db none (fun _ => none) = .ok l) :
    l.Pairwise (fun a b =>
        b.session_date < a.session_date ∨
          (a.session_date = b.session_date ∧ b.created_at ≤ a.created_at)) ∧
    ∀ s ∈ l, s.tasks.Pairwise (fun a b =>
        ∀ x y, a.sort_order = some x → b.sort_order = some y → x ≤ y) := by
  rw [fetchSessionsWithTasks_clean] at h
  have hl := Except.ok.inj h
  subst hl
  constructor
  · exact List.pairwise_map.mpr (List.sorted_insertionSort sessLE db.sessions)
  · rintro s hs
    obtain ⟨s0, _, rfl⟩ := List.mem_map.mp hs
    have hst : (tasksForSession db s0.id).Pairwise taskLE :=
      List.sorted_insertionSort taskLE _
    refine hst.imp ?_
    intro a b hab x y hx hy
    unfold taskLE at hab
    rw [hx, hy] at hab
    exact hab

/-- Claim C3 witness: the concrete store `dbF` fetches to the concrete
list `lF` (its tasks reordered ascending by `sort_order`) and both
ordering properties hold of it. -/
theorem c3_witness :
    fetchSessionsWithTasks dbF none (fun _ => none) = .ok lF ∧
    lF.Pairwise (fun a b =>
        b.session_date < a.session_date ∨
          (a.session_date = b.session_date ∧ b.created_at ≤ a.created_at)) ∧
    ∀ s ∈ lF, s.tasks.Pairwise (fun a b =>
        ∀ x y, a.sort_order = some x → b.sort_order = some y → x ≤ y) := by
  have h : fetchSessionsWithTasks dbF none (fun _ => none) = .ok lF := by rfl
  exact ⟨h, (c3_fetchAll_ordering dbF lF h).1, (c3_fetchAll_ordering dbF lF h).2⟩

/-- If any session in the iterated list has a failing task query, the fetch
loop aborts with the error of the first such session. -/
theorem fetchLoop_first_err (db : DB) (te : String → Option String) :
    ∀ l : List SessionRow, (∃ s ∈ l, (te s.id).isSome) →
      ∃ s m, s ∈ l ∧ te s.id = some m ∧
        fetchLoop db te l =
          .error ("Failed to fetch tasks for session " ++ s.id ++ ": " ++ m) := by
  intro l
  induction l with
  | nil => rintro ⟨s, hs, _⟩; cases hs
  | cons s rest ih =>
    intro hex
    rcases hte : te s.id with _ | m
    · have hrest : ∃ s' ∈ rest, (te s'.id).isSome := by
        rcases hex with ⟨s', hs', hsome⟩
        rcases List.mem_cons.mp hs' with rfl | hmem
        · simp [hte] at hsome
        · exact ⟨s', hmem, hsome⟩
      obtain ⟨s', m', hmem, hte', heq⟩ := ih hrest
      refine ⟨s', m', List.mem_cons_of_mem _ hmem, hte', ?_⟩
      simp [fetchLoop, hte, heq]
    · exact ⟨s, m, List.mem_cons_self _ _, hte, by simp [fetchLoop, hte]⟩

/-- Claim C4: `fetchAll` fails as a whole — with the wrapped fetch error
preserving the underlying cause — if the session query fails, or if any
single session's task query fails (the first such failure aborts the
entire call; the result is an error, so no partial list is returned). -/
theorem c4_fetchAll_error_propagation (db : DB) (m : String)
    (te : String → Option String) :
    fetchSessionsWithTasks db (some m) te =
        .error ("fetchSessionsWithTasks failed: " ++
          ("Failed to fetch sessions: " ++ m)) ∧
    ((∃ s ∈ sessionsOrdered db, (te s.id).isSome) →
      ∃ s m', s ∈ sessionsOrdered db ∧ te s.id = some m' ∧
        fetchSessionsWithTasks db none te =
          .error ("fetchSessionsWithTasks failed: " ++
            ("Failed to fetch tasks for session " ++ s.id ++ ": " ++ m'))) := by
  constructor
  · rfl
  · intro hex
    obtain ⟨s, m', hmem, hte, heq⟩ := fetchLoop_first_err db te _ hex
    refine ⟨s, m', hmem, hte, ?_⟩
    have hne : (sessionsOrdered db).isEmpty = false := by
      rcases h0 : sessionsOrdered db with _ | _
      · rw [h0] at hmem; cases hmem
      · rfl
    unfold fetchSessionsWithTasks
    simp [hne, heq]

/-- Claim C4 witness: on the concrete store `dbF`, a task-query failure for
session `sA` aborts the whole fetch with the wrapped error. -/
theorem c4_witness :
    ∃ s m', s ∈ sessionsOrdered dbF ∧
      (fun i => if i = "sA" then some "net down" else none : String → Option String) s.id = some m' ∧
      fetchSessionsWithTasks dbF none
          (fun i => if i = "sA" then some "net down" else none) =
        .error ("fetchSessionsWithTasks failed: " ++
          ("Failed to fetch tasks for session " ++ s.id ++ ": " ++ m')) := by
  have hmem : rowA ∈ sessionsOrdered dbF := by
    unfold sessionsOrdered
    rw [List.mem_insertionSort]
    simp [dbF]
  exact (c4_fetchAll_error_propagation dbF "x"
      (fun i => if i = "sA" then some "net down" else none)).2
    ⟨rowA, hmem, by rfl⟩

/-! ## Claims about the remote auth gate and the mapping layer -/

/-- Claim C5 counterexample: the claim says that with no authenticated
identity *both* `save()` and `load()` reject before any store call.  The
remote `loadSessions` does not reject: on the concrete store `dbW` (which
holds rows) it resolves with `.ok []` — the missing identity is silently
defaulted to an empty list, not surfaced as a rejection. -/
theorem c5_counterexample :
    Remote.loadSessions none dbW none (fun _ => none) = .ok [] := rfl

/-- Claim C5 (amended): with no authenticated identity the remote
`saveSessions` rejects with the `'Not authenticated'` error before any
store call (the store is unchanged and the outcome is independent of the
store oracles); the remote `loadSessions`, by contrast, does not reject —
it resolves with the empty list, also before any store call (its result is
independent of the store state and the fetch oracles). -/
theorem c5_amended_auth_gate (entry : SessionEntry) (db db' : DB)
    (sessionRes sessionRes' : InsertResult SessionRow)
    (tasksRes tasksRes' : List TaskInsertStamped → InsertResult (List TaskRow))
    (se se' : Option String) (te te' : String → Option String) :
    Remote.saveSessions none entry db sessionRes tasksRes =
        (db, .error "Not authenticated") ∧
    Remote.saveSessions none entry db sessionRes tasksRes =
        Remote.saveSessions none entry db sessionRes' tasksRes' ∧
    Remote.loadSessions none db se te = .ok [] ∧
    Remote.loadSessions none db se te = Remote.loadSessions none db' se' te' :=
  ⟨rfl, rfl, rfl, rfl⟩

/-- Claim C6: the remote mapping layer is lossy exactly as described — on
load, `tasksCompleted` is always `null` (never derived from the fetched
tasks) and `null` notes become the empty string; on save, `tasksCompleted`
is dropped (two entries differing only there map to the same session
payload) and empty-string notes become `null`. -/
theorem c6_mapping_lossiness (s : SessionWithTasks) (e : SessionEntry)
    (uid : String) (tc : Option JsNum) :
    (Remote.rowToEntry s).tasksCompleted = none ∧
    (s.notes = none → (Remote.rowToEntry s).notes = "") ∧
    Remote.entryToInsert { e with tasksCompleted := tc } uid =
        Remote.entryToInsert e uid ∧
    (e.notes = "" → (Remote.entryToInsert e uid).notes = none) := by
  refine ⟨rfl, ?_, rfl, ?_⟩
  · intro h
    simp [Remote.rowToEntry, jsOrString, h]
  · intro h
    simp [Remote.entryToInsert, h]

/-- Claim C6 witness: the lossy round-trip at concrete values — a fetched
row with `null` notes loads with empty-string notes and `null`
`tasksCompleted`; a draft with empty notes and a set `tasksCompleted`
saves to a payload with `null` notes, identical to the payload of the same
draft without the count. -/
theorem c6_witness :
    (Remote.rowToEntry { toSessionRow := rowB, tasks := [] }).tasksCompleted
        = none ∧
    (Remote.rowToEntry { toSessionRow := rowB, tasks := [] }).notes = "" ∧
    Remote.entryToInsert { entryW with tasksCompleted := none } "u1" =
        Remote.entryToInsert entryW "u1" ∧
    (Remote.entryToInsert entryW "u1").notes = none := by
  obtain ⟨h1, h2, h3, h4⟩ :=
    c6_mapping_lossiness { toSessionRow := rowB, tasks := [] } entryW "u1" none
  exact ⟨h1, h2 rfl, h3, h4 rfl⟩

/-! ## Claims about the local store -/

/-- Claim C7: local round-trip identity.  For a sequence of valid entries
`E` (entries whose numeric fields are genuine numbers, so serialization is
faithful), `load(save(E))` returns a sequence equal to `E`; and when the
prior storage content was itself written by `save` (no other writer
intervened), `save(load())` leaves the storage content unchanged. -/
theorem c7_local_roundtrip (E E0 : List SessionEntry)
    (storage st0 : LocalStore.RawPayload)
    (hE : ∀ e ∈ E, jsonSafeEntry e) :
    LocalStore.loadSessions (LocalStore.saveSessions E storage false) = E ∧
    (storage = LocalStore.saveSessions E0 st0 false →
      LocalStore.saveSessions (LocalStore.loadSessions storage) storage false =
        storage) := by
  refine ⟨rfl, ?_⟩
  intro h
  subst h
  rfl

/-- Claim C7 witness: the round trip at a concrete valid entry list and a
concrete save-written storage. -/
theorem c7_witness :
    LocalStore.loadSessions
        (LocalStore.saveSessions [entryW] .absent false) = [entryW] ∧
    LocalStore.saveSessions
        (LocalStore.loadSessions (LocalStore.saveSessions [entryW] .absent false))
        (LocalStore.saveSessions [entryW] .absent false) false =
      LocalStore.saveSessions [entryW] .absent false := by
  obtain ⟨h1, h2⟩ := c7_local_roundtrip [entryW] [entryW]
    (LocalStore.saveSessions [entryW] .absent false) .absent
    (by intro e he; simp at he; subst he; decide)
  exact ⟨h1, h2 rfl⟩

/-- Claim C8: the local `loadSessions` returns the empty sequence on every
bad persisted payload — absent, empty string, not parseable as JSON, or
parsing to a non-array value — and never raises (it is a total function;
every branch returns normally, nothing escapes its `try`). -/
theorem c8_local_load_bad_payload_empty :
    LocalStore.loadSessions .absent = [] ∧
    LocalStore.loadSessions .empty = [] ∧
    LocalStore.loadSessions .unparseable = [] ∧
    LocalStore.loadSessions (.parsed .nonArray) = [] :=
  ⟨rfl, rfl, rfl, rfl⟩

/-! ## Claims about the form handlers -/

/-- Claim C9: an empty `actualMinutes` input parses to `NaN`; the first two
validation rules (`sessionType`, `energyAfter`) are checked first and are
structurally always satisfied (their tags are nonempty, hence truthy), so
a draft whose `actualMinutes` is `NaN` is rejected by the third rule with
the actual-minutes validation error; in that case neither variant's
`handleSave` touches the store — the remote outcome is independent of the
store state and all oracles, and the local outcome leaves the list and
storage unchanged — and the draft is preserved. -/
theorem c9_validation_rejects_nan_before_io (form : SessionEntry)
    (h : form.actualMinutes.isNaN = true) :
    (∀ numberOf, parseNumberInput "" numberOf = .nan) ∧
    jsFalsy form.sessionType.toStr = false ∧
    jsFalsy form.energyAfter.toStr = false ∧
    validateForm form = some "Actual minutes is required" ∧
    (∀ auth db sessionRes tasksRes se te todayStr,
      Remote.handleSave auth db form sessionRes tasksRes se te todayStr =
        { db := db
          errorMsg := some "Actual minutes is required"
          sessionsSet := none
          form := form }) ∧
    (∀ genId todayStr sessions storage writeFails,
      LocalStore.handleSave genId todayStr form sessions storage writeFails =
        { errorMsg := some "Actual minutes is required"
          sessions := sessions
          storage := storage
          form := form }) := by
  have hst : jsFalsy form.sessionType.toStr = false := by
    cases form.sessionType <;> rfl
  have hen : jsFalsy form.energyAfter.toStr = false := by
    cases form.energyAfter <;> rfl
  have hv : validateForm form = some "Actual minutes is required" := by
    simp [validateForm, hst, hen, h]
  refine ⟨fun _ => rfl, hst, hen, hv, ?_, ?_⟩
  · intro auth db sessionRes tasksRes se te todayStr
    simp [Remote.handleSave, hv]
  · intro genId todayStr sessions storage writeFails
    simp [LocalStore.handleSave, hv]

/-- Claim C9 witness: the concrete draft `formNanW` (empty actual-minutes
input) is rejected with the validation error and the local save leaves
list and storage untouched. -/
theorem c9_witness :
    validateForm formNanW = some "Actual minutes is required" ∧
    LocalStore.handleSave "id9" "2024-02-02" formNanW [] .absent false =
      { errorMsg := some "Actual minutes is required"
        sessions := []
        storage := .absent
        form := formNanW } := by
  obtain ⟨_, _, _, h4, _, h6⟩ :=
    c9_validation_rejects_nan_before_io formNanW rfl
  exact ⟨h4, h6 "id9" "2024-02-02" [] .absent false⟩

/-- Claim C10: the remote `handleDelete` never surfaces a failure — no
path calls `setError`; a delete that settles with an error value in its
(uninspected) result leaves the store unchanged and still reloads the
list, so an entry present before the failed delete is still present in
the reloaded list; a successful delete also reloads; a thrown exception
is only logged (no reload, no error). -/
theorem c10_delete_failure_invisible (auth : Option String) (db : DB)
    (id m : String) (se : Option String) (te : String → Option String) :
    (∀ dres, (Remote.handleDelete auth db id dres se te).errorMsg = none) ∧
    (Remote.handleDelete auth db id (.errValue m) se te).db = db ∧
    (Remote.handleDelete auth db id (.errValue m) se te).sessionsSet =
      some (Remote.loadSessionsList auth db se te) ∧
    (Remote.handleDelete auth db id .ok se te).sessionsSet =
      some (Remote.loadSessionsList auth
        { db with sessions := db.sessions.filter (fun s => s.id != id) } se te) ∧
    (∀ uid, auth = some uid → se = none → te = (fun _ => none) →
      (∃ s ∈ db.sessions, s.id = id) →
      ∃ e ∈ Remote.loadSessionsList auth db se te, e.id = id) ∧
    Remote.handleDelete auth db id (.thrown m) se te =
      { db := db, sessionsSet := none, errorMsg := none } := by
  refine ⟨?_, ?_, ?_, ?_, ?_, ?_⟩
  · intro dres
    cases dres <;> simp [Remote.handleDelete, Remote.loadSessions_eq]
  · simp [Remote.handleDelete, Remote.loadSessions_eq]
  · simp [Remote.handleDelete, Remote.loadSessions_eq]
  · simp [Remote.handleDelete, Remote.loadSessions_eq]
  · intro uid ha hse hte hex
    subst ha; subst hse; subst hte
    obtain ⟨s, hs, hid⟩ := hex
    have hmem : s ∈ sessionsOrdered db := (List.mem_insertionSort sessLE).mpr hs
    refine ⟨Remote.rowToEntry
      { toSessionRow := s, tasks := tasksForSession db s.id }, ?_, ?_⟩
    · unfold Remote.loadSessionsList Remote.loadSessions
      rw [fetchSessionsWithTasks_clean]
      exact List.mem_map_of_mem _ (List.mem_map_of_mem _ hmem)
    · simpa [Remote.rowToEntry] using hid
  · simp [Remote.handleDelete]

/-- Claim C10 witness: on the concrete store `dbF`, a failed delete of
session `sA` surfaces no error, leaves the store unchanged, and the
reloaded list still contains an entry with id `sA`. -/
theorem c10_witness :
    (Remote.handleDelete (some "u1") dbF "sA" (.errValue "denied") none
        (fun _ => none)).errorMsg = none ∧
    (Remote.handleDelete (some "u1") dbF "sA" (.errValue "denied") none
        (fun _ => none)).db = dbF ∧
    ∃ e ∈ Remote.loadSessionsList (some "u1") dbF none (fun _ => none),
      e.id = "sA" := by
  obtain ⟨h1, h2, _, _, h5, _⟩ :=
    c10_delete_failure_invisible (some "u1") dbF "sA" "denied" none
      (fun _ => none)
  exact ⟨h1 _, h2, h5 "u1" rfl rfl rfl ⟨rowA, by simp [dbF], rfl⟩⟩
